import Mathlib

/-!
# Verification of `colab_utils.py`

A shallow embedding of the functions of `colab_utils.py` (the single source
module of this repository), together with proofs of the specification claims
about them.

Modelling conventions:

* Python strings are processed over `List Char` (`String.data`) with
  structural recursion, so that every definition evaluates inside the kernel.
  `pySplitOn`, `pySplitWs`, `pyStrip`, `pyStartsWith` implement the Python
  `str.split(sep)`, `str.split()`, `str.strip()` and `str.startswith` used by
  the source (restricted to the ASCII whitespace the inputs contain).
* Python numbers are modelled as `Int` (for `int`) and `ℚ` (for `float`).
  Every `float` the source manipulates is obtained from integer literals by
  divisions by powers of two and decimal parsing, which binary doubles of
  these magnitudes represent exactly, so `ℚ` arithmetic agrees with the
  Python float arithmetic on all inputs considered here.
* Fallible code returns `Except`/`Option`; Python exceptions `ValueError` and
  `TypeError` become the constructors of `PyErr`.  The exact message of a
  failed `int()`/`float()` conversion is abbreviated to a fixed text (the
  source only ever propagates it inside an opaque error string).
* Effectful functions take their environment (platform string, file content,
  subprocess outcome, filesystem) as explicit arguments and return the
  record the Python function returns, paired with the resulting state where
  a claim needs it.
-/

namespace ColabUtils

/-! ## Python string primitives over `List Char` -/

/-- Python `str.split(sep)` for a one-character separator: split at every
occurrence, keeping empty pieces.  `pySplitOn c s` is never empty. -/
def pySplitOn (sep : Char) : List Char → List (List Char)
  | [] => [[]]
  | c :: cs =>
    if c = sep then [] :: pySplitOn sep cs
    else
      match pySplitOn sep cs with
      | [] => [[c]]
      | p :: ps => (c :: p) :: ps

/-- Auxiliary accumulator for `pySplitWs`: `cur` is the reversed token read
so far. -/
def pySplitWsAux : List Char → List Char → List (List Char)
  | [], cur => if cur.isEmpty then [] else [cur.reverse]
  | c :: cs, cur =>
    if c.isWhitespace then
      if cur.isEmpty then pySplitWsAux cs [] else cur.reverse :: pySplitWsAux cs []
    else pySplitWsAux cs (c :: cur)

/-- Python `str.split()` with no argument: split on runs of whitespace,
discarding empty tokens. -/
def pySplitWs (s : List Char) : List (List Char) := pySplitWsAux s []

/-- Python `str.strip()`: drop leading and trailing whitespace. -/
def pyStrip (s : List Char) : List Char :=
  ((s.dropWhile Char.isWhitespace).reverse.dropWhile Char.isWhitespace).reverse

/-- Python `str.rstrip(':')`: drop trailing colons. -/
def pyRstripColon (s : List Char) : List Char :=
  (s.reverse.dropWhile (· = ':')).reverse

/-- Python `str.startswith(p)`: `p` is a leading piece of `s`. -/
def pyStartsWith : List Char → List Char → Bool
  | _, [] => true
  | [], _ :: _ => false
  | c :: cs, d :: ds => c = d && pyStartsWith cs ds

/-! ## Python numeric conversions -/

/-- Value of a digit run (assuming every character is a digit). -/
def digitsVal : List Char → Nat → Nat
  | [], acc => acc
  | c :: cs, acc => digitsVal cs (acc * 10 + (c.toNat - 48))

/-- All characters are decimal digits. -/
def digitsOnly (s : List Char) : Bool := s.all Char.isDigit

/-- Python `int(str)`: an optional sign followed by at least one digit.
(The underscore digit separators and surrounding whitespace Python also
accepts never occur in the inputs of this module and are not modelled.) -/
def pyInt : List Char → Option Int
  | '-' :: cs =>
    if cs ≠ [] ∧ digitsOnly cs then some (-(digitsVal cs 0 : Int)) else none
  | '+' :: cs =>
    if cs ≠ [] ∧ digitsOnly cs then some (digitsVal cs 0 : Int) else none
  | cs =>
    if cs ≠ [] ∧ digitsOnly cs then some (digitsVal cs 0 : Int) else none

/-- Split a float literal at the first `e`/`E`, returning the mantissa and
the exponent when present. -/
def breakAtE : List Char → List Char × Option (List Char)
  | [] => ([], none)
  | c :: cs =>
    if c = 'e' ∨ c = 'E' then ([], some cs)
    else
      match breakAtE cs with
      | (m, e) => (c :: m, e)

/-- Parse the mantissa of a Python float literal: `digits`, `digits.digits`,
`digits.` or `.digits`. -/
def parseMantissa (s : List Char) : Option ℚ :=
  match pySplitOn '.' s with
  | [ds] =>
    if ds ≠ [] ∧ digitsOnly ds then some ((digitsVal ds 0 : ℚ)) else none
  | [ip, fp] =>
    if (ip ≠ [] ∨ fp ≠ []) ∧ digitsOnly ip ∧ digitsOnly fp then
      some ((digitsVal ip 0 : ℚ) + (digitsVal fp 0 : ℚ) / (10 : ℚ) ^ fp.length)
    else none
  | _ => none

/-- Python `float(str)` on the finite decimal literals this module can meet
(`inf`/`nan` and underscore separators are not modelled). -/
def pyFloat (s : List Char) : Option ℚ :=
  match s with
  | '-' :: cs =>
    match breakAtE cs with
    | (m, none) => (parseMantissa m).map (fun q => -q)
    | (m, some es) =>
      match parseMantissa m, pyInt es with
      | some q, some k => some (-(q * (10 : ℚ) ^ k))
      | _, _ => none
  | cs =>
    let cs := match cs with
      | '+' :: rest => rest
      | other => other
    match breakAtE cs with
    | (m, none) => parseMantissa m
    | (m, some es) =>
      match parseMantissa m, pyInt es with
      | some q, some k => some (q * (10 : ℚ) ^ k)
      | _, _ => none

/-- Python `int(x)` on a float: truncation toward zero. -/
def pyTrunc (q : ℚ) : Int := q.num.tdiv q.den

/-- Fixed stand-in for the message of a Python `int()` conversion failure. -/
def intParseErrMsg : String := "invalid literal for int with base 10"

/-- Fixed stand-in for the message of a Python `float()` conversion failure. -/
def floatParseErrMsg : String := "could not convert string to float"

/-! ## Python values and exceptions for `format_file_size` -/

/-- The argument of `format_file_size`: a Python `int`, a Python `float`, or
any non-numeric value (carrying its type name for the error message).
Python `bool` is a subclass of `int` and would take the `int` path; it is
subsumed by the `int` constructor. -/
inductive PyVal where
  | int (n : Int)
  | float (q : ℚ)
  | other (typeName : String)
deriving DecidableEq

/-- The numeric value of a `PyVal` (zero on the non-numeric constructor,
which every user guards against). -/
def PyVal.toQ : PyVal → ℚ
  | .int n => (n : ℚ)
  | .float q => q
  | .other _ => 0

/-- Whether the `isinstance(size_bytes, (int, float))` check passes. -/
def PyVal.isNum : PyVal → Bool
  | .int _ => true
  | .float _ => true
  | .other _ => false

/-- The two exception kinds `format_file_size` raises. -/
inductive PyErr where
  | typeError (msg : String)
  | valueError (msg : String)
deriving DecidableEq

/-- Python `str(e)`: the message of the exception. -/
def PyErr.str : PyErr → String
  | .typeError m => m
  | .valueError m => m

/-! ## `format_file_size` (colab_utils.py lines 216-267) -/

/-- `units = ['B', 'KB', 'MB', 'GB', 'TB', 'PB']`. -/
def units : List String := ["B", "KB", "MB", "GB", "TB", "PB"]

/-- The `while size >= 1024 and unit_index < len(units) - 1` loop.  The fuel
is `len(units) - 1 - unit_index`, the number of increments still allowed, so
`fuel = 0` is exactly the `unit_index < len(units) - 1` bound failing. -/
def scaleLoop : Nat → ℚ → Nat → ℚ × Nat
  | 0, size, idx => (size, idx)
  | fuel + 1, size, idx =>
    if 1024 ≤ size then scaleLoop fuel (size / 1024) (idx + 1) else (size, idx)

/-- Round half to even at the integers (what Python `format(x, '.2f')` does
to `x * 100`; the floats reaching it here are exact in `ℚ`). -/
def roundHalfEven (q : ℚ) : Int :=
  let f : Int := q.num.fdiv q.den
  if q - (f : ℚ) < 1 / 2 then f
  else if (1 : ℚ) / 2 < q - (f : ℚ) then f + 1
  else if f % 2 = 0 then f else f + 1

/-- Python `f"{q:.2f}"` for the non-negative values this module formats. -/
def fmtTwoDec (q : ℚ) : String :=
  let n := roundHalfEven (q * 100)
  let ip := n / 100
  let fp := (n % 100).toNat
  toString ip ++ "." ++ (if fp < 10 then "0" ++ toString fp else toString fp)

/-- The numeric path of `format_file_size`, after the `isinstance` check. -/
def formatQ (q : ℚ) : Except PyErr String :=
  if q < 0 then .error (.valueError "size_bytes must be non-negative")
  else if q = 0 then .ok "0 B"
  else
    let sz := scaleLoop (units.length - 1) q 0
    if sz.2 = 0 then .ok (toString (pyTrunc sz.1) ++ " B")
    else .ok (fmtTwoDec sz.1 ++ " " ++ units.getD sz.2 "")

/-- `format_file_size(size_bytes)`: raises `TypeError` on a non-number,
`ValueError` on a negative number, returns `"0 B"` for zero, the truncated
integer with `" B"` under 1024, and otherwise the value scaled by 1024 with
two decimals and the selected unit. -/
def format_file_size (x : PyVal) : Except PyErr String :=
  match x with
  | .other t => .error (.typeError ("size_bytes must be a number, got " ++ t))
  | .int n => formatQ (n : ℚ)
  | .float q => formatQ q

example : format_file_size (.int 0) = .ok "0 B" := by with_unfolding_all rfl
example : format_file_size (.int 512) = .ok "512 B" := by with_unfolding_all rfl
example : format_file_size (.int 1024) = .ok "1.00 KB" := by with_unfolding_all rfl
example : format_file_size (.int 1536) = .ok "1.50 KB" := by with_unfolding_all rfl
example : format_file_size (.int 1048576) = .ok "1.00 MB" := by with_unfolding_all rfl
example : format_file_size (.int 1073741824) = .ok "1.00 GB" := by with_unfolding_all rfl

/-! ## `get_memory_info` (colab_utils.py lines 358-446) -/

/-- The record `get_memory_info` returns.  The Python dict always carries
`platform`; the seven data fields are always written before the function
returns (either from `/proc/meminfo` or by a failure handler), and `error`
is present exactly on the failure paths. -/
structure MemInfo where
  platform : String
  total_bytes : Int
  available_bytes : Int
  used_bytes : Int
  percent_used : ℚ
  total_formatted : String
  available_formatted : String
  used_formatted : String
  error : Option String

/-- The outcome of `open('/proc/meminfo', 'r')` and the read, as the
environment presents it: the content, a `FileNotFoundError`, or any other
exception (with its message). -/
inductive ReadOutcome where
  | ok (content : String)
  | fileNotFound
  | failure (msg : String)

/-- The `meminfo` dict built by the `for line in f` loop: split each line on
whitespace, keep lines with at least two parts, strip trailing colons from
the key, `int()` the second part and scale to bytes.  A failing `int()`
raises `ValueError`, which the `except Exception` arm of the source catches;
later occurrences of a key override earlier ones (dict assignment). -/
def buildMeminfo : List (List Char) → Except PyErr (List (String × Int))
  | [] => .ok []
  | line :: rest =>
    match pySplitWs line with
    | p0 :: p1 :: _ =>
      match pyInt p1 with
      | some v =>
        (buildMeminfo rest).map
          (fun m => (String.mk (pyRstripColon p0), v * 1024) :: m)
      | none => .error (.valueError intParseErrMsg)
    | _ => buildMeminfo rest

/-- `dict.get key deflt` where later entries of the association list
override earlier ones (the fold keeps replacing the default). -/
def dictGet : List (String × Int) → String → Int → Int
  | [], _, deflt => deflt
  | (k, v) :: rest, key, deflt =>
    if k = key then dictGet rest key v else dictGet rest key deflt

/-- The record every failure arm of `get_memory_info` builds: zeros,
`"N/A"` strings and the error message. -/
def memErrRecord (platform msg : String) : MemInfo :=
  { platform := platform
    total_bytes := 0
    available_bytes := 0
    used_bytes := 0
    percent_used := 0
    total_formatted := "N/A"
    available_formatted := "N/A"
    used_formatted := "N/A"
    error := some msg }

/-- The body of the `try` block on the Linux branch: parse `/proc/meminfo`,
read `MemTotal` and `MemAvailable` (falling back to `MemFree`, then 0),
compute `used`, the percentage (0 when `total` is not positive), and the
three formatted strings.  Any exception escapes as `.error`; the sequential
dict writes the source performs before an exception are all overwritten by
the handler, so only the completed record matters. -/
def memLinuxBody (platform content : String) : Except PyErr MemInfo :=
  match buildMeminfo (pySplitOn '\n' content.data) with
  | .error e => .error e
  | .ok meminfo =>
    let total := dictGet meminfo "MemTotal" 0
    let available := dictGet meminfo "MemAvailable" (dictGet meminfo "MemFree" 0)
    let used := total - available
    let percent : ℚ := if 0 < total then (used : ℚ) / (total : ℚ) * 100 else 0
    match format_file_size (.int total) with
    | .error e => .error e
    | .ok tf =>
      match format_file_size (.int available) with
      | .error e => .error e
      | .ok af =>
        match format_file_size (.int used) with
        | .error e => .error e
        | .ok uf =>
          .ok { platform := platform
                total_bytes := total
                available_bytes := available
                used_bytes := used
                percent_used := percent
                total_formatted := tf
                available_formatted := af
                used_formatted := uf
                error := none }

/-- `get_memory_info()`: on a platform whose name starts with `linux`, read
and process `/proc/meminfo`; `FileNotFoundError` and every other exception
produce the uniform failure record; any other platform produces the
"not fully supported" failure record without touching the file. -/
def get_memory_info (platform : String) (file : ReadOutcome) : MemInfo :=
  if pyStartsWith platform.data "linux".data then
    match file with
    | .ok content =>
      match memLinuxBody platform content with
      | .ok r => r
      | .error e => memErrRecord platform ("Failed to get memory info: " ++ e.str)
    | .fileNotFound => memErrRecord platform "/proc/meminfo not found"
    | .failure msg => memErrRecord platform ("Failed to get memory info: " ++ msg)
  else
    memErrRecord platform ("Memory info not fully supported on " ++ platform)

example :
    (get_memory_info "linux" (.ok "MemTotal: 2048 kB\nMemAvailable: 1024 kB")).used_bytes
      = 1048576 := by with_unfolding_all rfl
example :
    (get_memory_info "linux" (.ok "MemTotal: 2048 kB\nMemAvailable: 1024 kB")).percent_used
      = 50 := by with_unfolding_all rfl
example :
    (get_memory_info "linux" (.ok "MemTotal: 2048 kB\nMemAvailable: 1024 kB")).used_formatted
      = "1.00 MB" := by with_unfolding_all rfl
example :
    (get_memory_info "linux" (.ok "MemTotal: 100 kB\nMemAvailable: 200 kB")).used_bytes
      = 0 := by with_unfolding_all rfl
example :
    (get_memory_info "linux" (.ok "MemTotal: 100 kB\nMemAvailable: 200 kB")).error
      = some "Failed to get memory info: size_bytes must be non-negative" := by
  with_unfolding_all rfl

/-! ## `get_gpu_info` (colab_utils.py lines 270-355) -/

/-- One entry of the `devices` list. -/
structure GpuDevice where
  index : Int
  name : String
  memory_total : Int
  memory_used : Int
  memory_free : Int
deriving DecidableEq

/-- The record `get_gpu_info` returns.  `driver_version` and `error` model
the keys that are present only when assigned. -/
structure GpuInfo where
  available : Bool
  count : Nat
  devices : List GpuDevice
  driver_version : Option String
  error : Option String
deriving DecidableEq

/-- The outcome of the `subprocess.run(['nvidia-smi', ...], timeout=10)`
call, as the environment presents it: a completed process (return code and
captured stdout), `FileNotFoundError`, `subprocess.TimeoutExpired`, or any
other exception (with its message). -/
inductive RunOutcome where
  | completed (returncode : Int) (stdout : String)
  | fileNotFound
  | timeoutExpired
  | otherError (msg : String)

/-- The initial `result` dict: `available=False, count=0, devices=[]`,
no driver version, no error. -/
def gpuBase : GpuInfo :=
  { available := false, count := 0, devices := [], driver_version := none, error := none }

/-- The `for line in lines` parsing loop.  `drv` is the `driver_version`
entry of the result dict accumulated so far (set from the first well-formed
line only).  Blank lines are skipped; a line is accepted when splitting on
commas and stripping yields at least six fields; `int()`/`float()` failures
raise, carried as `.error` together with the `drv` already written into the
result dict by earlier lines.  Returns the device list in line order and the
final `drv`. -/
def parseGpuLines :
    List (List Char) → Option String →
      Except (Option String × String) (List GpuDevice × Option String)
  | [], drv => .ok ([], drv)
  | line :: rest, drv =>
    if pyStrip line = [] then parseGpuLines rest drv
    else
      let parts := (pySplitOn ',' line).map pyStrip
      if 6 ≤ parts.length then
        match pyInt (parts.getD 0 []) with
        | none => .error (drv, intParseErrMsg)
        | some idx =>
          match pyFloat (parts.getD 2 []) with
          | none => .error (drv, floatParseErrMsg)
          | some mt =>
            match pyFloat (parts.getD 3 []) with
            | none => .error (drv, floatParseErrMsg)
            | some mu =>
              match pyFloat (parts.getD 4 []) with
              | none => .error (drv, floatParseErrMsg)
              | some mf =>
                let device : GpuDevice :=
                  { index := idx
                    name := String.mk (parts.getD 1 [])
                    memory_total := pyTrunc mt
                    memory_used := pyTrunc mu
                    memory_free := pyTrunc mf }
                let drv2 := if drv.isNone then some (String.mk (parts.getD 5 [])) else drv
                match parseGpuLines rest drv2 with
                | .ok (ds, d) => .ok (device :: ds, d)
                | .error e => .error e
      else parseGpuLines rest drv

/-- `get_gpu_info()`: translate the subprocess outcome.  `FileNotFoundError`,
`TimeoutExpired`, any other exception and a non-zero exit each set only the
`error` key; otherwise `stdout.strip().split('\n')` is parsed, and if at
least one device parsed, `available`, `count` and `devices` are set. -/
def get_gpu_info (o : RunOutcome) : GpuInfo :=
  match o with
  | .fileNotFound =>
    { gpuBase with error := some "nvidia-smi not found (no NVIDIA GPU or drivers not installed)" }
  | .timeoutExpired => { gpuBase with error := some "nvidia-smi command timed out" }
  | .otherError msg => { gpuBase with error := some ("Failed to get GPU info: " ++ msg) }
  | .completed rc stdout =>
    if rc ≠ 0 then { gpuBase with error := some "nvidia-smi command failed" }
    else
      match parseGpuLines (pySplitOn '\n' (pyStrip stdout.data)) none with
      | .error (drv, msg) =>
        { gpuBase with
            driver_version := drv
            error := some ("Failed to get GPU info: " ++ msg) }
      | .ok (devices, drv) =>
        if devices.isEmpty then { gpuBase with driver_version := drv }
        else
          { available := true
            count := devices.length
            devices := devices
            driver_version := drv
            error := none }

example :
    get_gpu_info (.completed 0 "0, Tesla T4, 15109, 500, 14609, 525.85.12") =
      { available := true
        count := 1
        devices := [{ index := 0, name := "Tesla T4", memory_total := 15109,
                      memory_used := 500, memory_free := 14609 }]
        driver_version := some "525.85.12"
        error := none } := by with_unfolding_all rfl

example : get_gpu_info (.completed 0 "") = gpuBase := by with_unfolding_all rfl

/-! ## `download_from_url` (colab_utils.py lines 125-213)

Paths are modelled as the strings pathlib receives (`Path.cwd() / filename`
appends a separator and the name; `Path(destination)` keeps the given
string).  The filesystem is modelled as the list of directory paths that
exist; `mkdir(parents=True, exist_ok=True)` adds every missing ancestor of
the destination's parent.  The network fetch is an environment-supplied
outcome. -/

/-- The `url` argument: a Python string or any non-string value. -/
inductive UrlArg where
  | str (s : String)
  | nonString (typeName : String)

/-- The outcome of `urlretrieve`, as the environment presents it. -/
inductive FetchOutcome where
  | success
  | httpError (code : Nat) (msg : String)
  | urlError (reason : String)
  | ioError (msg : String)
deriving DecidableEq

/-- The exceptions `download_from_url` raises (after its re-wrapping). -/
inductive DlError where
  | valueError (msg : String)
  | httpError (code : Nat) (msg : String)
  | urlError (msg : String)
  | ioError (msg : String)
deriving DecidableEq

/-- `url.split('/')[-1].split('?')[0]`, with the `'downloaded_file'`
fallback when that is empty (lines 178-180). -/
def deriveFilename (url : String) : String :=
  let lastSeg := (pySplitOn '/' url.data).getLastD []
  let filename := (pySplitOn '?' lastSeg).headD []
  if filename.isEmpty then "downloaded_file" else String.mk filename

/-- The resolved `destination_path` (lines 176-183): the current directory
joined with the derived filename when no destination is given, the given
path verbatim otherwise. -/
def resolveDest (url : String) (destination : Option String) (cwd : String) : String :=
  match destination with
  | none => cwd ++ "/" ++ deriveFilename url
  | some d => d

/-- `'/'.join` of path segments. -/
def joinSegs : List (List Char) → List Char
  | [] => []
  | [s] => s
  | s :: rest => s ++ '/' :: joinSegs rest

/-- The directories `destination_path.parent.mkdir(parents=True)` creates or
requires: every leading run of the destination's segments except the final
(file) segment.  For an absolute path the first prefix is the empty join,
which stands for the filesystem root `/`. -/
def ancestorPaths (p : String) : List String :=
  let segs := (pySplitOn '/' p.data).dropLast
  (List.range segs.length).map (fun i => String.mk (joinSegs (segs.take (i + 1))))

/-- `mkdir(parents=True, exist_ok=True)`: add the missing ancestors to the
filesystem, keeping the existing ones. -/
def mkdirParents (fs : List String) (p : String) : List String :=
  fs ++ (ancestorPaths p).filter (fun a => decide (a ∉ fs))

/-- `download_from_url(url, destination)` run against an environment: the
current directory, the fetch outcome, and the existing directories.
Returns what the call returns or raises, together with the directories that
exist afterwards.  Validation happens before any filesystem effect; the
`mkdir` happens before the fetch; the three fetch failure modes are
re-raised with the source's rewritten messages. -/
def download_from_url (url : UrlArg) (destination : Option String) (cwd : String)
    (fetch : FetchOutcome) (fs : List String) : Except DlError String × List String :=
  match url with
  | .nonString _ => (.error (.valueError "URL must be a non-empty string"), fs)
  | .str u =>
    if u = "" then (.error (.valueError "URL must be a non-empty string"), fs)
    else if !(pyStartsWith u.data "http://".data || pyStartsWith u.data "https://".data) then
      (.error (.valueError "URL must start with http:// or https://"), fs)
    else
      let destination_path := resolveDest u destination cwd
      let fs2 := mkdirParents fs destination_path
      match fetch with
      | .success => (.ok destination_path, fs2)
      | .httpError code msg =>
        (.error (.httpError code ("HTTP Error " ++ toString code ++ ": " ++ msg)), fs2)
      | .urlError reason =>
        (.error (.urlError ("Failed to download from " ++ u ++ ": " ++ reason)), fs2)
      | .ioError msg =>
        (.error (.ioError ("Failed to save file to " ++ destination_path ++ ": " ++ msg)), fs2)

example :
    deriveFilename "https://example.com/file.csv?version=1&token=abc" = "file.csv" := by
  with_unfolding_all rfl
example : deriveFilename "https://example.com/" = "downloaded_file" := by
  with_unfolding_all rfl
example :
    (download_from_url (.str "https://example.com/a/file.csv") (some "/tmp/x/y.csv")
        "/home" (.ioError "disk full") ["/tmp"]).2 = ["/tmp", "", "/tmp/x"] := by
  with_unfolding_all rfl

/-! ## Lemmas about `format_file_size` -/

/-- Invariants of the scaling loop: the index only grows, by at most the
fuel; the scaled size times `1024 ^ steps` recovers the input; when the loop
stopped with fuel to spare, the size dropped below 1024; non-negativity is
preserved. -/
theorem scaleLoop_spec (fuel : Nat) :
    ∀ (q : ℚ) (idx : Nat), 0 ≤ q →
      idx ≤ (scaleLoop fuel q idx).2 ∧
      (scaleLoop fuel q idx).2 ≤ idx + fuel ∧
      (scaleLoop fuel q idx).1 * 1024 ^ ((scaleLoop fuel q idx).2 - idx) = q ∧
      ((scaleLoop fuel q idx).2 < idx + fuel → (scaleLoop fuel q idx).1 < 1024) ∧
      0 ≤ (scaleLoop fuel q idx).1 := by
  induction fuel with
  | zero =>
    intro q idx hq
    simp only [scaleLoop]
    refine ⟨le_refl _, by omega, by simp, by omega, hq⟩
  | succ fuel ih =>
    intro q idx hq
    by_cases h : (1024 : ℚ) ≤ q
    · have hrw : scaleLoop (fuel + 1) q idx = scaleLoop fuel (q / 1024) (idx + 1) := by
        rw [scaleLoop, if_pos h]
      rw [hrw]
      obtain ⟨h1, h2, h3, h4, h5⟩ :=
        ih (q / 1024) (idx + 1) (div_nonneg hq (by norm_num))
      refine ⟨by omega, by omega, ?_, fun hlt => h4 (by omega), h5⟩
      have hexp : (scaleLoop fuel (q / 1024) (idx + 1)).2 - idx =
          ((scaleLoop fuel (q / 1024) (idx + 1)).2 - (idx + 1)) + 1 := by omega
      rw [hexp, pow_succ, ← mul_assoc, h3, div_mul_cancel₀]
      norm_num
    · have hrw : scaleLoop (fuel + 1) q idx = (q, idx) := by
        rw [scaleLoop, if_neg h]
      rw [hrw]
      exact ⟨le_refl _, by omega, by simp, fun _ => not_le.mp h, hq⟩

/-- Negative sizes raise `ValueError`. -/
theorem formatQ_neg {q : ℚ} (h : q < 0) :
    formatQ q = .error (.valueError "size_bytes must be non-negative") := by
  rw [formatQ, if_pos h]

/-- Non-negative sizes always format successfully. -/
theorem formatQ_isOk {q : ℚ} (h : 0 ≤ q) : ∃ s, formatQ q = .ok s := by
  rw [formatQ, if_neg (not_lt.mpr h)]
  by_cases h0 : q = 0
  · rw [if_pos h0]
    exact ⟨_, rfl⟩
  · rw [if_neg h0]
    dsimp only
    split
    · exact ⟨_, rfl⟩
    · exact ⟨_, rfl⟩

/-- A successful format means the size was not negative. -/
theorem formatQ_ok_nonneg {q : ℚ} {s : String} (h : formatQ q = .ok s) : 0 ≤ q := by
  by_contra hneg
  rw [formatQ_neg (not_le.mp hneg)] at h
  exact Except.noConfusion h

/-- On a numeric argument, `format_file_size` is the numeric path at the
argument's value. -/
theorem format_file_size_num {v : PyVal} (h : v.isNum = true) :
    format_file_size v = formatQ v.toQ := by
  cases v with
  | int n => rfl
  | float q => rfl
  | other t => simp [PyVal.isNum] at h

/-- Values below 1024 never enter the loop: zero gives `"0 B"`, the rest the
truncated integer with suffix `" B"`. -/
theorem formatQ_lt1024 {q : ℚ} (h0 : 0 ≤ q) (h1 : q < 1024) :
    formatQ q = .ok (if q = 0 then "0 B" else toString (pyTrunc q) ++ " B") := by
  rw [formatQ, if_neg (not_lt.mpr h0)]
  by_cases hz : q = 0
  · rw [if_pos hz, if_pos hz]
  · rw [if_neg hz, if_neg hz]
    have hscale : scaleLoop (units.length - 1) q 0 = (q, 0) := by
      show scaleLoop (4 + 1) q 0 = (q, 0)
      rw [scaleLoop, if_neg (not_le.mpr h1)]
    simp [hscale]

/-- Values at or above 1024 take at least one loop step and are rendered
with `fmtTwoDec` and the selected unit. -/
theorem formatQ_ge1024 {q : ℚ} (h : (1024 : ℚ) ≤ q) :
    formatQ q =
      .ok (fmtTwoDec (scaleLoop (units.length - 1) q 0).1 ++ " " ++
        units.getD (scaleLoop (units.length - 1) q 0).2 "") ∧
    1 ≤ (scaleLoop (units.length - 1) q 0).2 := by
  have hq : 0 ≤ q := le_trans (by norm_num) h
  have hne : q ≠ 0 := by
    intro hz
    rw [hz] at h
    norm_num at h
  have hstep : scaleLoop (units.length - 1) q 0 = scaleLoop 4 (q / 1024) 1 := by
    show scaleLoop (4 + 1) q 0 = _
    rw [scaleLoop, if_pos h]
  have hone : 1 ≤ (scaleLoop (units.length - 1) q 0).2 := by
    rw [hstep]
    exact (scaleLoop_spec 4 (q / 1024) 1 (div_nonneg hq (by norm_num))).1
  refine ⟨?_, hone⟩
  rw [formatQ, if_neg (not_lt.mpr hq), if_neg hne]
  simp only []
  rw [if_neg (by omega)]

/-- C2: `format_file_size` is a total function on the modelled Python
values: `0 ↦ "0 B"`; `512 ↦ "512 B"`; `1024 ↦ "1.00 KB"`; `1536 ↦ "1.50 KB"`;
`1048576 ↦ "1.00 MB"`; `1073741824 ↦ "1.00 GB"`; every non-negative numeric
value below 1024 maps to its truncated integer with `" B"`; every negative
numeric value yields `ValueError`; every non-numeric value yields
`TypeError`; every numeric value at least 1024 is repeatedly divided by 1024
(at most `len(units) - 1` times, stopping below 1024 unless the final unit
is reached, as the loop invariant states) and rendered with two decimals, a
space and the unit chosen from `B, KB, MB, GB, TB, PB`. -/
theorem C2_format_file_size_spec :
    format_file_size (.int 0) = .ok "0 B" ∧
    format_file_size (.int 512) = .ok "512 B" ∧
    format_file_size (.int 1024) = .ok "1.00 KB" ∧
    format_file_size (.int 1536) = .ok "1.50 KB" ∧
    format_file_size (.int 1048576) = .ok "1.00 MB" ∧
    format_file_size (.int 1073741824) = .ok "1.00 GB" ∧
    (∀ v : PyVal, v.isNum = true → 0 ≤ v.toQ → v.toQ < 1024 →
      format_file_size v =
        .ok (if v.toQ = 0 then "0 B" else toString (pyTrunc v.toQ) ++ " B")) ∧
    (∀ v : PyVal, v.isNum = true → v.toQ < 0 →
      format_file_size v = .error (.valueError "size_bytes must be non-negative")) ∧
    (∀ t : String, format_file_size (.other t) =
      .error (.typeError ("size_bytes must be a number, got " ++ t))) ∧
    (∀ v : PyVal, v.isNum = true → (1024 : ℚ) ≤ v.toQ →
      format_file_size v =
        .ok (fmtTwoDec (scaleLoop (units.length - 1) v.toQ 0).1 ++ " " ++
          units.getD (scaleLoop (units.length - 1) v.toQ 0).2 "") ∧
      1 ≤ (scaleLoop (units.length - 1) v.toQ 0).2) ∧
    (∀ q : ℚ, 0 ≤ q →
      (scaleLoop (units.length - 1) q 0).1 *
          1024 ^ (scaleLoop (units.length - 1) q 0).2 = q ∧
      (scaleLoop (units.length - 1) q 0).2 ≤ units.length - 1 ∧
      ((scaleLoop (units.length - 1) q 0).2 < units.length - 1 →
        (scaleLoop (units.length - 1) q 0).1 < 1024)) := by
  refine ⟨by with_unfolding_all rfl, by with_unfolding_all rfl, by with_unfolding_all rfl,
    by with_unfolding_all rfl, by with_unfolding_all rfl, by with_unfolding_all rfl,
    ?_, ?_, ?_, ?_, ?_⟩
  · intro v hnum h0 h1
    rw [format_file_size_num hnum]
    exact formatQ_lt1024 h0 h1
  · intro v hnum hneg
    rw [format_file_size_num hnum]
    exact formatQ_neg hneg
  · intro t
    rfl
  · intro v hnum hge
    rw [format_file_size_num hnum]
    exact formatQ_ge1024 hge
  · intro q hq
    obtain ⟨h1, h2, h3, h4, h5⟩ := scaleLoop_spec (units.length - 1) q 0 hq
    rw [Nat.sub_zero] at h3
    exact ⟨h3, by omega, fun hlt => h4 (by omega)⟩

/-! ## Lemmas about `get_memory_info` -/

/-- Any record the Linux body returns satisfies `used = total - available`,
has a zero percentage when the total is zero, and carries no error. -/
theorem memLinuxBody_ok {p c : String} {r : MemInfo} (h : memLinuxBody p c = .ok r) :
    r.used_bytes = r.total_bytes - r.available_bytes ∧
    (r.total_bytes = 0 → r.percent_used = 0) ∧ r.error = none := by
  unfold memLinuxBody at h
  split at h
  · exact Except.noConfusion h
  · dsimp only at h
    split at h
    · exact Except.noConfusion h
    · split at h
      · exact Except.noConfusion h
      · split at h
        · exact Except.noConfusion h
        · injection h with h
          subst h
          refine ⟨rfl, ?_, rfl⟩
          intro h0
          simp only at h0 ⊢
          simp [h0]

/-- The record of every call satisfies `used = total - available` and has
a zero percentage when the total is zero (the failure records are all-zero,
the success record by construction). -/
theorem get_memory_info_fields (p : String) (f : ReadOutcome) :
    (get_memory_info p f).used_bytes =
      (get_memory_info p f).total_bytes - (get_memory_info p f).available_bytes ∧
    ((get_memory_info p f).total_bytes = 0 → (get_memory_info p f).percent_used = 0) := by
  by_cases hp : pyStartsWith p.data "linux".data = true
  · rw [get_memory_info.eq_def, if_pos hp]
    cases f with
    | ok c =>
      cases hb : memLinuxBody p c with
      | ok r =>
        simp only [hb]
        obtain ⟨h1, h2, _⟩ := memLinuxBody_ok hb
        exact ⟨h1, h2⟩
      | error e => simp [hb, memErrRecord]
    | fileNotFound => simp [memErrRecord]
    | failure m => simp [memErrRecord]
  · rw [get_memory_info.eq_def, if_neg hp]
    simp [memErrRecord]

/-- With a readable, well-formed `/proc/meminfo` (non-negative available not
exceeding the total), the Linux body succeeds and its record carries the
parsed totals, the percentage formula, and no error. -/
theorem memLinuxBody_ok_of {p c : String} {m : List (String × Int)}
    (hm : buildMeminfo (pySplitOn '\n' c.data) = .ok m)
    (h0 : 0 ≤ dictGet m "MemAvailable" (dictGet m "MemFree" 0))
    (h1 : dictGet m "MemAvailable" (dictGet m "MemFree" 0) ≤ dictGet m "MemTotal" 0) :
    ∃ r, memLinuxBody p c = .ok r ∧
      r.total_bytes = dictGet m "MemTotal" 0 ∧
      r.available_bytes = dictGet m "MemAvailable" (dictGet m "MemFree" 0) ∧
      r.percent_used =
        (if 0 < dictGet m "MemTotal" 0 then
          ((dictGet m "MemTotal" 0 - dictGet m "MemAvailable" (dictGet m "MemFree" 0) : ℤ) : ℚ)
            / ((dictGet m "MemTotal" 0 : ℤ) : ℚ) * 100
        else 0) ∧
      r.error = none := by
  have ht : (0 : ℤ) ≤ dictGet m "MemTotal" 0 := le_trans h0 h1
  have hu : (0 : ℤ) ≤ dictGet m "MemTotal" 0 - dictGet m "MemAvailable" (dictGet m "MemFree" 0) :=
    sub_nonneg.mpr h1
  obtain ⟨tf, htf⟩ := formatQ_isOk (q := (dictGet m "MemTotal" 0 : ℚ)) (by exact_mod_cast ht)
  obtain ⟨af, haf⟩ :=
    formatQ_isOk (q := (dictGet m "MemAvailable" (dictGet m "MemFree" 0) : ℚ))
      (by exact_mod_cast h0)
  obtain ⟨uf, huf⟩ :=
    formatQ_isOk
      (q := ((dictGet m "MemTotal" 0 - dictGet m "MemAvailable" (dictGet m "MemFree" 0) : ℤ) : ℚ))
      (by exact_mod_cast hu)
  unfold memLinuxBody
  rw [hm]
  dsimp only
  rw [show (format_file_size (.int (dictGet m "MemTotal" 0)) : Except PyErr String)
      = formatQ (dictGet m "MemTotal" 0 : ℚ) from rfl, htf]
  rw [show (format_file_size (.int (dictGet m "MemAvailable" (dictGet m "MemFree" 0)))
        : Except PyErr String)
      = formatQ (dictGet m "MemAvailable" (dictGet m "MemFree" 0) : ℚ) from rfl, haf]
  rw [show (format_file_size
        (.int (dictGet m "MemTotal" 0 - dictGet m "MemAvailable" (dictGet m "MemFree" 0)))
        : Except PyErr String)
      = formatQ ((dictGet m "MemTotal" 0
          - dictGet m "MemAvailable" (dictGet m "MemFree" 0) : ℤ) : ℚ) from rfl, huf]
  exact ⟨_, rfl, rfl, rfl, rfl, rfl⟩

/-- With content whose parsed available entry exceeds the total, the body
raises `ValueError` from formatting a negative size (either `used`, or the
total itself when it is negative). -/
theorem memLinuxBody_overflow {p c : String} {m : List (String × Int)}
    (hm : buildMeminfo (pySplitOn '\n' c.data) = .ok m)
    (hlt : dictGet m "MemTotal" 0 < dictGet m "MemAvailable" (dictGet m "MemFree" 0)) :
    memLinuxBody p c = .error (.valueError "size_bytes must be non-negative") := by
  unfold memLinuxBody
  rw [hm]
  dsimp only
  by_cases ht : (0 : ℤ) ≤ dictGet m "MemTotal" 0
  · have ha : (0 : ℤ) ≤ dictGet m "MemAvailable" (dictGet m "MemFree" 0) :=
      le_trans ht (le_of_lt hlt)
    obtain ⟨tf, htf⟩ := formatQ_isOk (q := (dictGet m "MemTotal" 0 : ℚ)) (by exact_mod_cast ht)
    obtain ⟨af, haf⟩ :=
      formatQ_isOk (q := (dictGet m "MemAvailable" (dictGet m "MemFree" 0) : ℚ))
        (by exact_mod_cast ha)
    have hneg : ((dictGet m "MemTotal" 0
        - dictGet m "MemAvailable" (dictGet m "MemFree" 0) : ℤ) : ℚ) < 0 := by
      exact_mod_cast sub_neg.mpr hlt
    rw [show (format_file_size (.int (dictGet m "MemTotal" 0)) : Except PyErr String)
        = formatQ (dictGet m "MemTotal" 0 : ℚ) from rfl, htf]
    rw [show (format_file_size (.int (dictGet m "MemAvailable" (dictGet m "MemFree" 0)))
          : Except PyErr String)
        = formatQ (dictGet m "MemAvailable" (dictGet m "MemFree" 0) : ℚ) from rfl, haf]
    rw [show (format_file_size
          (.int (dictGet m "MemTotal" 0 - dictGet m "MemAvailable" (dictGet m "MemFree" 0)))
          : Except PyErr String)
        = formatQ ((dictGet m "MemTotal" 0
            - dictGet m "MemAvailable" (dictGet m "MemFree" 0) : ℤ) : ℚ) from rfl,
      formatQ_neg hneg]
  · have hneg : ((dictGet m "MemTotal" 0 : ℤ) : ℚ) < 0 := by
      exact_mod_cast not_le.mp ht
    rw [show (format_file_size (.int (dictGet m "MemTotal" 0)) : Except PyErr String)
        = formatQ (dictGet m "MemTotal" 0 : ℚ) from rfl, formatQ_neg hneg]

/-- C1 counterexample: on `/proc/meminfo` content whose available entry
(200 kB = 204800 bytes) exceeds its total (100 kB = 102400 bytes), the
returned `used_bytes` is 0 — not `total - available = -102400` as claimed —
because formatting the negative intermediate value raised, and the generic
handler zeroed the record and set the error field. -/
theorem C1_negative_used_counterexample :
    (get_memory_info "linux" (.ok "MemTotal: 100 kB\nMemAvailable: 200 kB")).used_bytes = 0 ∧
    (get_memory_info "linux" (.ok "MemTotal: 100 kB\nMemAvailable: 200 kB")).used_bytes ≠
      102400 - 204800 ∧
    (get_memory_info "linux" (.ok "MemTotal: 100 kB\nMemAvailable: 200 kB")).error =
      some "Failed to get memory info: size_bytes must be non-negative" := by
  have h0 : (get_memory_info "linux"
      (.ok "MemTotal: 100 kB\nMemAvailable: 200 kB")).used_bytes = 0 := by
    with_unfolding_all rfl
  refine ⟨h0, ?_, by with_unfolding_all rfl⟩
  rw [h0]
  decide

/-- C1 (amended): when the parsed available entry exceeds the parsed total,
`used = total - available` is computed negative without guarding, but
`format_file_size(used)` (or `format_file_size(total)` when the total itself
is negative) then raises `ValueError`, the generic handler catches it, and
the returned record is the uniform failure record: `used_bytes` is 0, all
formatted strings `"N/A"`, and the error field reports the negative size.
The negative value is never returned. -/
theorem C1_amended_negative_used :
    ∀ (p c : String) (m : List (String × Int)),
      pyStartsWith p.data "linux".data = true →
      buildMeminfo (pySplitOn '\n' c.data) = .ok m →
      dictGet m "MemTotal" 0 < dictGet m "MemAvailable" (dictGet m "MemFree" 0) →
      get_memory_info p (.ok c) =
        memErrRecord p "Failed to get memory info: size_bytes must be non-negative" := by
  intro p c m hp hm hlt
  rw [get_memory_info.eq_def, if_pos hp]
  dsimp only
  rw [memLinuxBody_overflow hm hlt]
  have hmsg : "Failed to get memory info: "
      ++ PyErr.str (.valueError "size_bytes must be non-negative")
      = "Failed to get memory info: size_bytes must be non-negative" := by decide
  dsimp only
  rw [hmsg]

/-- C1 amended, instantiated at the counterexample content. -/
theorem C1_amended_witness :
    get_memory_info "linux" (.ok "MemTotal: 100 kB\nMemAvailable: 200 kB") =
      memErrRecord "linux" "Failed to get memory info: size_bytes must be non-negative" :=
  C1_amended_negative_used "linux" "MemTotal: 100 kB\nMemAvailable: 200 kB"
    [("MemTotal", 102400), ("MemAvailable", 204800)]
    (by decide) (by with_unfolding_all rfl) (by decide)

/-- C4: every returned record satisfies
`used_bytes = total_bytes - available_bytes`; a zero `total_bytes` always
comes with `percent_used = 0` (no division by zero); and on a Linux platform
with readable, well-formed content (`0 ≤ available ≤ total` after parsing)
the call succeeds (no error) with `0 ≤ percent_used ≤ 100`. -/
theorem C4_memory_consistency :
    (∀ (p : String) (f : ReadOutcome),
      (get_memory_info p f).used_bytes =
        (get_memory_info p f).total_bytes - (get_memory_info p f).available_bytes) ∧
    (∀ (p : String) (f : ReadOutcome),
      (get_memory_info p f).total_bytes = 0 → (get_memory_info p f).percent_used = 0) ∧
    (∀ (p c : String) (m : List (String × Int)),
      pyStartsWith p.data "linux".data = true →
      buildMeminfo (pySplitOn '\n' c.data) = .ok m →
      0 ≤ dictGet m "MemAvailable" (dictGet m "MemFree" 0) →
      dictGet m "MemAvailable" (dictGet m "MemFree" 0) ≤ dictGet m "MemTotal" 0 →
      (get_memory_info p (.ok c)).error = none ∧
      0 ≤ (get_memory_info p (.ok c)).percent_used ∧
      (get_memory_info p (.ok c)).percent_used ≤ 100) := by
  refine ⟨fun p f => (get_memory_info_fields p f).1,
    fun p f => (get_memory_info_fields p f).2, ?_⟩
  intro p c m hp hm h0 h1
  obtain ⟨r, hr, ht, ha, hpc, he⟩ := memLinuxBody_ok_of (p := p) hm h0 h1
  have hcall : get_memory_info p (.ok c) = r := by
    rw [get_memory_info.eq_def, if_pos hp]
    dsimp only
    rw [hr]
  rw [hcall, hpc, he]
  refine ⟨rfl, ?_, ?_⟩
  · split
    · have htQ : (0 : ℚ) < ((dictGet m "MemTotal" 0 : ℤ) : ℚ) := by exact_mod_cast by assumption
      have huQ : (0 : ℚ) ≤ ((dictGet m "MemTotal" 0
          - dictGet m "MemAvailable" (dictGet m "MemFree" 0) : ℤ) : ℚ) := by
        exact_mod_cast sub_nonneg.mpr h1
      positivity
    · norm_num
  · split
    · have htpos : (0 : ℤ) < dictGet m "MemTotal" 0 := by assumption
      have htQ : (0 : ℚ) < ((dictGet m "MemTotal" 0 : ℤ) : ℚ) := by exact_mod_cast htpos
      have haQ : (0 : ℚ) ≤ ((dictGet m "MemAvailable" (dictGet m "MemFree" 0) : ℤ) : ℚ) := by
        exact_mod_cast h0
      have hdiv : ((dictGet m "MemTotal" 0
            - dictGet m "MemAvailable" (dictGet m "MemFree" 0) : ℤ) : ℚ)
          / ((dictGet m "MemTotal" 0 : ℤ) : ℚ) ≤ 1 := by
        rw [div_le_one htQ]
        push_cast
        linarith
      calc ((dictGet m "MemTotal" 0
            - dictGet m "MemAvailable" (dictGet m "MemFree" 0) : ℤ) : ℚ)
            / ((dictGet m "MemTotal" 0 : ℤ) : ℚ) * 100
          ≤ 1 * 100 := by
            exact mul_le_mul_of_nonneg_right hdiv (by norm_num)
        _ = 100 := by norm_num
    · norm_num

/-- C8: `get_memory_info` (a total function of its environment, so it never
raises) returns the uniform failure record — all four numeric fields zero,
all three formatted strings `"N/A"`, and an error describing the cause — on
every non-Linux platform, when the status file is missing, when reading it
fails unexpectedly, and when processing its content raises. -/
theorem C8_memory_failure_shape :
    (∀ (p : String) (f : ReadOutcome), pyStartsWith p.data "linux".data = false →
      get_memory_info p f = memErrRecord p ("Memory info not fully supported on " ++ p)) ∧
    (∀ p : String, pyStartsWith p.data "linux".data = true →
      get_memory_info p .fileNotFound = memErrRecord p "/proc/meminfo not found") ∧
    (∀ (p msg : String), pyStartsWith p.data "linux".data = true →
      get_memory_info p (.failure msg) =
        memErrRecord p ("Failed to get memory info: " ++ msg)) ∧
    (∀ (p c : String) (e : PyErr), pyStartsWith p.data "linux".data = true →
      memLinuxBody p c = .error e →
      get_memory_info p (.ok c) =
        memErrRecord p ("Failed to get memory info: " ++ e.str)) ∧
    (∀ p msg : String,
      (memErrRecord p msg).total_bytes = 0 ∧
      (memErrRecord p msg).available_bytes = 0 ∧
      (memErrRecord p msg).used_bytes = 0 ∧
      (memErrRecord p msg).percent_used = 0 ∧
      (memErrRecord p msg).total_formatted = "N/A" ∧
      (memErrRecord p msg).available_formatted = "N/A" ∧
      (memErrRecord p msg).used_formatted = "N/A" ∧
      (memErrRecord p msg).error = some msg ∧
      (memErrRecord p msg).platform = p) := by
  refine ⟨?_, ?_, ?_, ?_, ?_⟩
  · intro p f hp
    rw [get_memory_info.eq_def, if_neg (by simp [hp])]
  · intro p hp
    rw [get_memory_info.eq_def, if_pos hp]
  · intro p msg hp
    rw [get_memory_info.eq_def, if_pos hp]
  · intro p c e hp he
    rw [get_memory_info.eq_def, if_pos hp]
    dsimp only
    rw [he]
  · intro p msg
    exact ⟨rfl, rfl, rfl, rfl, rfl, rfl, rfl, rfl, rfl⟩

/-! ## Lemmas about `get_gpu_info` -/

/-- The failure paths of `get_gpu_info`: the tool is absent, the call timed
out, any other exception was raised, the tool exited non-zero, or parsing
its output raised. -/
def gpuFailurePath : RunOutcome → Prop
  | .fileNotFound => True
  | .timeoutExpired => True
  | .otherError _ => True
  | .completed rc s =>
    rc ≠ 0 ∨ ∃ e, parseGpuLines (pySplitOn '\n' (pyStrip s.data)) none = .error e

/-- When every (comma-split, stripped) line has fewer than six fields, the
parsing loop accepts nothing and leaves the driver entry unchanged. -/
theorem parseGpuLines_short :
    ∀ (lines : List (List Char)) (drv : Option String),
      (∀ l ∈ lines, ((pySplitOn ',' l).map pyStrip).length < 6) →
      parseGpuLines lines drv = .ok ([], drv) := by
  intro lines
  induction lines with
  | nil => intro drv _; rfl
  | cons l rest ih =>
    intro drv h
    have hl := h l (List.mem_cons_self l rest)
    have hrest := fun x hx => h x (List.mem_cons_of_mem l hx)
    rw [parseGpuLines.eq_def]
    dsimp only
    by_cases hb : pyStrip l = []
    · rw [if_pos hb]
      exact ih drv hrest
    · rw [if_neg hb, if_neg (by omega)]
      exact ih drv hrest

/-- C3: `get_gpu_info` is a total function of the subprocess outcome (the
model of "never raises"), and on every failure path — tool absent, timeout,
unexpected exception, non-zero exit, or output whose parsing raises — the
returned record has `available = False`, `count = 0`, an empty device list,
and a populated error field. -/
theorem C3_gpu_failure_paths :
    ∀ o : RunOutcome, gpuFailurePath o →
      (get_gpu_info o).available = false ∧
      (get_gpu_info o).count = 0 ∧
      (get_gpu_info o).devices = [] ∧
      (get_gpu_info o).error.isSome = true := by
  intro o ho
  cases o with
  | fileNotFound => exact ⟨rfl, rfl, rfl, rfl⟩
  | timeoutExpired => exact ⟨rfl, rfl, rfl, rfl⟩
  | otherError m => exact ⟨rfl, rfl, rfl, rfl⟩
  | completed rc s =>
    by_cases hrc : rc = 0
    · subst hrc
      rcases ho with h | ⟨e, he⟩
      · exact absurd rfl h
      · obtain ⟨drv, msg⟩ := e
        rw [get_gpu_info.eq_def]
        dsimp only
        rw [if_neg (by simp), he]
        exact ⟨rfl, rfl, rfl, rfl⟩
    · rw [get_gpu_info.eq_def]
      dsimp only
      rw [if_pos hrc]
      exact ⟨rfl, rfl, rfl, rfl⟩

/-- C3 at the concrete tool-absent outcome. -/
theorem C3_gpu_failure_witness :
    (get_gpu_info .fileNotFound).available = false ∧
    (get_gpu_info .fileNotFound).count = 0 ∧
    (get_gpu_info .fileNotFound).devices = [] ∧
    (get_gpu_info .fileNotFound).error.isSome = true :=
  C3_gpu_failure_paths .fileNotFound trivial

/-- C7: parsing of a successful `nvidia-smi` run: the single line
`"0, Tesla T4, 15109, 500, 14609, 525.85.12"` yields exactly one device
named `"Tesla T4"` with `memory_total = 15109` (fields comma-split and
whitespace-trimmed); a line with only five fields is not accepted;
fractional memory fields pass through the float cast and are truncated to
integers; the driver version is taken from the first well-formed line
only. -/
theorem C7_gpu_parsing :
    get_gpu_info (.completed 0 "0, Tesla T4, 15109, 500, 14609, 525.85.12") =
      { available := true
        count := 1
        devices := [{ index := 0, name := "Tesla T4", memory_total := 15109,
                      memory_used := 500, memory_free := 14609 }]
        driver_version := some "525.85.12"
        error := none } ∧
    get_gpu_info (.completed 0 "0, Tesla T4, 15109, 500, 14609") = gpuBase ∧
    (get_gpu_info (.completed 0 "0, Tesla T4, 15109.7, 500.2, 14608.9, 525.85.12")).devices =
      [{ index := 0, name := "Tesla T4", memory_total := 15109,
         memory_used := 500, memory_free := 14608 }] ∧
    (get_gpu_info (.completed 0
        "0, GPU A, 100, 10, 90, 111.11\n1, GPU B, 200, 20, 180, 222.22")).driver_version =
      some "111.11" ∧
    (get_gpu_info (.completed 0
        "0, GPU A, 100, 10, 90, 111.11\n1, GPU B, 200, 20, 180, 222.22")).count = 2 := by
  refine ⟨?_, ?_, ?_, ?_, ?_⟩
  · with_unfolding_all rfl
  · with_unfolding_all rfl
  · with_unfolding_all rfl
  · with_unfolding_all rfl
  · with_unfolding_all rfl

/-- C9: a zero-exit run none of whose output lines yields six
comma-separated fields (for example, empty output) returns the untouched
base record: `available = False`, `count = 0`, empty devices, and neither
an error nor a driver version — an outcome that is neither a reported
success nor a reported failure. -/
theorem C9_gpu_silent_no_device :
    (∀ stdout : String,
      (∀ l ∈ pySplitOn '\n' (pyStrip stdout.data),
        ((pySplitOn ',' l).map pyStrip).length < 6) →
      get_gpu_info (.completed 0 stdout) = gpuBase) ∧
    get_gpu_info (.completed 0 "") = gpuBase ∧
    gpuBase.available = false ∧ gpuBase.count = 0 ∧ gpuBase.devices = [] ∧
    gpuBase.error = none ∧ gpuBase.driver_version = none := by
  refine ⟨?_, by with_unfolding_all rfl, rfl, rfl, rfl, rfl, rfl⟩
  intro s h
  rw [get_gpu_info.eq_def]
  dsimp only
  rw [if_neg (by simp), parseGpuLines_short _ none h]
  rfl

/-! ## Lemmas about `download_from_url` -/

/-- The URL passes validation: a non-empty string starting with `http://`
or `https://`. -/
def validUrl (u : String) : Prop :=
  u ≠ "" ∧ (pyStartsWith u.data "http://".data = true ∨
    pyStartsWith u.data "https://".data = true)

/-- Every ancestor of the destination's parent is in the filesystem after
`mkdir(parents=True, exist_ok=True)`. -/
theorem mem_mkdirParents (fs : List String) (p a : String) (ha : a ∈ ancestorPaths p) :
    a ∈ mkdirParents fs p := by
  by_cases h : a ∈ fs
  · exact List.mem_append_left _ h
  · exact List.mem_append_right _ (List.mem_filter.mpr ⟨ha, by simp [h]⟩)

/-- A call with a valid URL: the destination is resolved, the parent
directories are created, and the fetch outcome decides the returned value,
with the source's re-wrapped messages. -/
theorem download_from_url_run {u : String} (hv : validUrl u)
    (d : Option String) (cwd : String) (fetch : FetchOutcome) (fs : List String) :
    download_from_url (.str u) d cwd fetch fs =
      (match fetch with
       | .success => .ok (resolveDest u d cwd)
       | .httpError code msg =>
         .error (.httpError code ("HTTP Error " ++ toString code ++ ": " ++ msg))
       | .urlError reason =>
         .error (.urlError ("Failed to download from " ++ u ++ ": " ++ reason))
       | .ioError msg =>
         .error (.ioError ("Failed to save file to " ++ resolveDest u d cwd ++ ": " ++ msg)),
       mkdirParents fs (resolveDest u d cwd)) := by
  obtain ⟨hne, hs⟩ := hv
  rw [download_from_url.eq_def]
  dsimp only
  rw [if_neg hne]
  have hcond : (pyStartsWith u.data "http://".data
      || pyStartsWith u.data "https://".data) = true := by
    rcases hs with h | h <;> simp [h]
  simp only [hcond, Bool.not_true]
  cases fetch <;> rfl

/-- C5: `download_from_url` raises `ValueError` — with the filesystem
untouched, i.e. before any side effect — for a non-string URL, for the
empty string, and for any string not starting with `http://` or
`https://`. -/
theorem C5_url_validation :
    (∀ (t : String) (d : Option String) (cwd : String) (fetch : FetchOutcome)
        (fs : List String),
      download_from_url (.nonString t) d cwd fetch fs =
        (.error (.valueError "URL must be a non-empty string"), fs)) ∧
    (∀ (d : Option String) (cwd : String) (fetch : FetchOutcome) (fs : List String),
      download_from_url (.str "") d cwd fetch fs =
        (.error (.valueError "URL must be a non-empty string"), fs)) ∧
    (∀ (u : String) (d : Option String) (cwd : String) (fetch : FetchOutcome)
        (fs : List String),
      u ≠ "" →
      pyStartsWith u.data "http://".data = false →
      pyStartsWith u.data "https://".data = false →
      download_from_url (.str u) d cwd fetch fs =
        (.error (.valueError "URL must start with http:// or https://"), fs)) := by
  refine ⟨fun t d cwd fetch fs => rfl, fun d cwd fetch fs => by with_unfolding_all rfl, ?_⟩
  intro u d cwd fetch fs hne h1 h2
  rw [download_from_url.eq_def]
  dsimp only
  rw [if_neg hne]
  simp [h1, h2]

/-- C6: with no destination, the filename is the URL's last path segment
with the query string stripped (`https://example.com/file.csv?version=1&token=abc`
gives exactly `file.csv`), the fixed fallback `downloaded_file` when that
segment is empty, placed in the current working directory; an explicit
destination is used verbatim; and for every fetch outcome the missing
parents of the resolved destination exist in the resulting filesystem
(created before writing). -/
theorem C6_destination_resolution :
    deriveFilename "https://example.com/file.csv?version=1&token=abc" = "file.csv" ∧
    (∀ cwd : String,
      resolveDest "https://example.com/file.csv?version=1&token=abc" none cwd =
        cwd ++ "/" ++ "file.csv") ∧
    deriveFilename "https://example.com/" = "downloaded_file" ∧
    (∀ (u d cwd : String), resolveDest u (some d) cwd = d) ∧
    (∀ (u : String) (d : Option String) (cwd : String) (fetch : FetchOutcome)
        (fs : List String), validUrl u →
      ∀ a ∈ ancestorPaths (resolveDest u d cwd),
        a ∈ (download_from_url (.str u) d cwd fetch fs).2) ∧
    (∀ (u : String) (d : Option String) (cwd : String) (fs : List String), validUrl u →
      (download_from_url (.str u) d cwd .success fs).1 = .ok (resolveDest u d cwd)) := by
  refine ⟨by with_unfolding_all rfl, ?_, by with_unfolding_all rfl,
    fun u d cwd => rfl, ?_, ?_⟩
  · intro cwd
    simp only [resolveDest]
    rw [show deriveFilename "https://example.com/file.csv?version=1&token=abc" = "file.csv"
      from by with_unfolding_all rfl]
  · intro u d cwd fetch fs hv a ha
    rw [download_from_url_run hv]
    exact mem_mkdirParents fs _ a ha
  · intro u d cwd fs hv
    rw [download_from_url_run hv]

/-- C6 at concrete inputs: the query string is stripped, an explicit
destination is verbatim, and its parent is created. -/
theorem C6_destination_witness :
    resolveDest "https://example.com/file.csv?version=1&token=abc" none "/content" =
      "/content" ++ "/" ++ "file.csv" ∧
    (download_from_url (.str "https://example.com/file.csv?version=1&token=abc")
        (some "/tmp/out/data.csv") "/content" .success []).1 = .ok "/tmp/out/data.csv" ∧
    "/tmp/out" ∈ (download_from_url (.str "https://example.com/file.csv?version=1&token=abc")
        (some "/tmp/out/data.csv") "/content" .success []).2 :=
  ⟨C6_destination_resolution.2.1 "/content",
    C6_destination_resolution.2.2.2.2.2 _ (some "/tmp/out/data.csv") "/content" []
      ⟨by decide, Or.inr (by decide)⟩,
    C6_destination_resolution.2.2.2.2.1 _ (some "/tmp/out/data.csv") "/content" .success []
      ⟨by decide, Or.inr (by decide)⟩ "/tmp/out" (by decide)⟩

/-- C10: once validation passes, the parent directories of the resolved
destination are created before the fetch is attempted, so for every failing
fetch outcome (HTTP, transport, or I/O error) the call returns the error
while the created directories persist in the filesystem — the operation is
not atomic on error. -/
theorem C10_mkdir_persists :
    ∀ (u : String) (d : Option String) (cwd : String) (fetch : FetchOutcome)
      (fs : List String), validUrl u →
      (download_from_url (.str u) d cwd fetch fs).2 =
        mkdirParents fs (resolveDest u d cwd) ∧
      (∀ a ∈ ancestorPaths (resolveDest u d cwd),
        a ∈ (download_from_url (.str u) d cwd fetch fs).2) ∧
      (fetch ≠ .success →
        ∃ e, (download_from_url (.str u) d cwd fetch fs).1 = .error e) := by
  intro u d cwd fetch fs hv
  rw [download_from_url_run hv]
  refine ⟨rfl, fun a ha => mem_mkdirParents fs _ a ha, ?_⟩
  intro hne
  cases fetch with
  | success => exact absurd rfl hne
  | httpError code msg => exact ⟨_, rfl⟩
  | urlError reason => exact ⟨_, rfl⟩
  | ioError msg => exact ⟨_, rfl⟩

/-- C10 at a concrete failing fetch: the directories created for the
explicit destination persist although the download returned an error. -/
theorem C10_mkdir_persists_witness :
    (download_from_url (.str "https://example.com/data/file.csv")
        (some "/tmp/out/file.csv") "/home" (.httpError 404 "Not Found") []).2 =
      mkdirParents [] (resolveDest "https://example.com/data/file.csv"
        (some "/tmp/out/file.csv") "/home") ∧
    (∀ a ∈ ancestorPaths (resolveDest "https://example.com/data/file.csv"
        (some "/tmp/out/file.csv") "/home"),
      a ∈ (download_from_url (.str "https://example.com/data/file.csv")
        (some "/tmp/out/file.csv") "/home" (.httpError 404 "Not Found") []).2) ∧
    ((.httpError 404 "Not Found" : FetchOutcome) ≠ .success →
      ∃ e, (download_from_url (.str "https://example.com/data/file.csv")
        (some "/tmp/out/file.csv") "/home" (.httpError 404 "Not Found") []).1 = .error e) :=
  C10_mkdir_persists "https://example.com/data/file.csv" (some "/tmp/out/file.csv")
    "/home" (.httpError 404 "Not Found") [] ⟨by decide, Or.inr (by decide)⟩

end ColabUtils
